import Mathlib

/-!
Shallow embedding of the day18 dual-core virtual machine (src/src/day18.rs).

Machine integers are modelled over Int/Nat with explicit two's-complement
wrapping: 18446744073709551616 = 2^64 and 9223372036854775808 = 2^63.
Rust release semantics is used for the integer casts and additions that can
wrap (the as-casts are defined to wrap in every Rust profile); the remainder
operator's divisor-zero and overflow aborts, which fire in every profile,
are modelled as a distinct Fault error propagated through Except.
-/

namespace Day18

/-- Wrap an integer into the signed 64-bit range, as Rust release-mode
i64/isize addition does. -/
def wrap64 (x : Int) : Int :=
  (x + 9223372036854775808) % 18446744073709551616 - 9223372036854775808

/-- The value of a usize bit pattern read as isize (the Rust cast
pc as isize). -/
def toSigned64 (n : Nat) : Int :=
  if n < 9223372036854775808 then (n : Int) else (n : Int) - 18446744073709551616

/-- The bit pattern of an isize value read as usize (the Rust cast
x as usize). -/
def toUnsigned64 (x : Int) : Nat :=
  (x % 18446744073709551616).toNat

/-- RegisterSet: HashMap from register name to i64, reads default to 0.
Modelled extensionally as a total function. -/
def RegisterSet : Type := Char → Int

def RegisterSet.new : RegisterSet := fun _ => 0

def RegisterSet.get (regs : RegisterSet) (r : Char) : Int := regs r

def RegisterSet.set (regs : RegisterSet) (r : Char) (v : Int) : RegisterSet :=
  fun c => if c = r then v else regs c

/-- Value: a register reference or an i64 literal. -/
inductive Value where
  | register (r : Char)
  | number (n : Int)
deriving DecidableEq

/-- Value::get - resolve against a register set. -/
def Value.get : Value → RegisterSet → Int
  | .register r, regs => regs.get r
  | .number n, _ => n

/-- The instruction set of day18. -/
inductive Instruction where
  | snd (v : Value)
  | set (r : Char) (v : Value)
  | add (r : Char) (v : Value)
  | mul (r : Char) (v : Value)
  | mod (r : Char) (v : Value)
  | rcv (r : Char)
  | jgz (v : Value) (o : Value)
deriving DecidableEq

/-- CoreError, exactly the two variants of the source. -/
inductive CoreError where
  | outOfInstructions
  | deadlock
deriving DecidableEq

/-- The ways the Rust remainder operator aborts the program: a resolved
divisor of 0, or i64::MIN rem -1. Both abort in every compilation profile;
they are a different control path from a CoreError Result. -/
inductive Fault where
  | remZero
  | remOverflow
deriving DecidableEq

/-- Core: program, program counter, registers and the last played
frequency. -/
structure Core where
  code : List Instruction
  pc : Nat
  regs : RegisterSet
  freq : Option Int

/-- The pc += 1 at the end of every executed instruction (usize wrap). -/
def Core.advance (c : Core) : Core :=
  { c with pc := (c.pc + 1) % 18446744073709551616 }

/-- The pc update of a taken jgz before the trailing pc += 1:
(pc as isize + ofs as isize - 1) as usize. -/
def jumpTarget (pc : Nat) (ofs : Int) : Nat :=
  toUnsigned64 (wrap64 (wrap64 (toSigned64 pc + ofs) - 1))

/-- Core::step, the single-core (legacy) instruction semantics.
The outer Except layer is an abort of the remainder operator; the inner
one is the function's own Result return value. -/
def Core.step (c : Core) : Except Fault (Except CoreError Core) :=
  match c.code.get? c.pc with
  | none => .ok (.error .outOfInstructions)
  | some ins =>
    match ins with
    | .snd v =>
      .ok (.ok (Core.advance { c with freq := some (v.get c.regs) }))
    | .set r v =>
      .ok (.ok (Core.advance { c with regs := c.regs.set r (v.get c.regs) }))
    | .add r v =>
      .ok (.ok (Core.advance
        { c with regs := c.regs.set r (wrap64 (c.regs.get r + v.get c.regs)) }))
    | .mul r v =>
      .ok (.ok (Core.advance
        { c with regs := c.regs.set r (wrap64 (c.regs.get r * v.get c.regs)) }))
    | .mod r v =>
      if v.get c.regs = 0 then .error .remZero
      else if c.regs.get r = -9223372036854775808 ∧ v.get c.regs = -1 then
        .error .remOverflow
      else
        .ok (.ok (Core.advance
          { c with regs := c.regs.set r ((c.regs.get r).tmod (v.get c.regs)) }))
    | .rcv r =>
      .ok (.ok (Core.advance (if c.regs.get r ≠ 0 then { c with freq := none } else c)))
    | .jgz v o =>
      .ok (.ok (Core.advance
        (if 0 < v.get c.regs then { c with pc := jumpTarget c.pc (o.get c.regs) } else c)))

/-- The loop body state of Core::run_until_recv: the extra argument is the
mutable local last_freq. Outer none = fuel exhausted; some (.ok r) = the
function returned r; some (.error f) = a step aborted. -/
def Core.runUntilRecvFrom : Nat → Core → Option Int → Option (Except Fault (Option Int))
  | 0, _, _ => none
  | fuel + 1, c, lastFreq =>
    match c.step with
    | .error f => some (.error f)
    | .ok (.error _) => some (.ok none)
    | .ok (.ok c2) =>
      if c2.freq.isNone && lastFreq.isSome then some (.ok lastFreq)
      else Core.runUntilRecvFrom fuel c2 c2.freq

/-- Core::run_until_recv - last_freq starts as None. -/
def Core.runUntilRecv (fuel : Nat) (c : Core) : Option (Except Fault (Option Int)) :=
  Core.runUntilRecvFrom fuel c none

/-- A core is blocked: its current instruction is a receive and the inbound
channel is empty (the spec's invariant (d)). -/
def Core.isBlocked (c : Core) (rx : List Int) : Bool :=
  match c.code.get? c.pc with
  | some (.rcv _) => rx.isEmpty
  | _ => false

/-- Whether the instruction under the cursor is one of the two channel
operations (snd or rcv), the only ones DualCore::step_core treats
specially. -/
def isChannelOp : Option Instruction → Bool
  | some (.snd _) => true
  | some (.rcv _) => true
  | _ => false

/-- DualCore: two cores, the two crossed channels and the per-core
sent-message counters. -/
structure DualCore where
  core1 : Core
  core2 : Core
  queue1 : List Int
  queue2 : List Int
  txcount1 : Nat
  txcount2 : Nat

/-- The tail of DualCore::step_core: the unconditional core.step() call,
with the channels and counter passed through unchanged. -/
def DualCore.finishStep (c : Core) (rx tx : List Int) (count : Nat) :
    Except Fault (Except CoreError Unit × Core × List Int × List Int × Nat) :=
  match c.step with
  | .error f => .error f
  | .ok (.ok c2) => .ok (.ok (), c2, rx, tx, count)
  | .ok (.error e) => .ok (.error e, c, rx, tx, count)

/-- DualCore::step_core: the dual-core per-core tick. A snd pushes to tx and
counts before the legacy step runs; a rcv on an empty inbound channel
returns Err(Deadlock) before anything is touched, and on a non-empty one
pops and stores before the legacy step runs. -/
def DualCore.stepCore (core : Core) (rx tx : List Int) (count : Nat) :
    Except Fault (Except CoreError Unit × Core × List Int × List Int × Nat) :=
  match core.code.get? core.pc with
  | some (.snd v) =>
    DualCore.finishStep core rx (tx ++ [v.get core.regs]) (count + 1)
  | some (.rcv r) =>
    match rx with
    | [] => .ok (.error .deadlock, core, rx, tx, count)
    | n :: rest =>
      DualCore.finishStep { core with regs := core.regs.set r n } rest tx count
  | _ => DualCore.finishStep core rx tx count

/-- The result combination of DualCore::step, arm for arm. -/
def DualCore.combine :
    Except CoreError Unit → Except CoreError Unit → Except CoreError Unit
  | .error .deadlock, .error .deadlock => .error .deadlock
  | .error .deadlock, r => r
  | r, .error .deadlock => r
  | .error e, _ => .error e
  | _, .error e => .error e
  | _, _ => .ok ()

/-- DualCore::step - one scheduler tick: core1 steps against rx = queue1 /
tx = queue2, then core2 against rx = queue2 / tx = queue1 as core1 left
them; the new state is returned alongside the combined result. -/
def DualCore.step (d : DualCore) :
    Except Fault (Except CoreError Unit × DualCore) :=
  match DualCore.stepCore d.core1 d.queue1 d.queue2 d.txcount1 with
  | .error f => .error f
  | .ok (r1, c1, q1, q2, t1) =>
    match DualCore.stepCore d.core2 q2 q1 d.txcount2 with
    | .error f => .error f
    | .ok (r2, c2, q2b, q1b, t2) =>
      .ok (DualCore.combine r1 r2, ⟨c1, c2, q1b, q2b, t1, t2⟩)

/-- DualCore::run - tick until a tick reports an error, then return the
final state and its two counters. none = fuel exhausted. The CoreError
that ends the loop is dropped, exactly as the source's while-let drops
it; only the counter pair (and the mutated self) survive. -/
def DualCore.run : Nat → DualCore → Except Fault (Option (DualCore × Nat × Nat))
  | 0, _ => .ok none
  | fuel + 1, d =>
    match d.step with
    | .error f => .error f
    | .ok (.ok _, d2) => DualCore.run fuel d2
    | .ok (.error _, d2) => .ok (some (d2, d2.txcount1, d2.txcount2))

/-- The terminal condition the run loop of DualCore::run observes and then
discards: the CoreError of the tick that ended the loop (deadlock = the
Deadlocked terminal state, outOfInstructions = Halted). Instrumentation
over the same step function; not part of run's return value. -/
def DualCore.runTag : Nat → DualCore → Except Fault (Option CoreError)
  | 0, _ => .ok none
  | fuel + 1, d =>
    match d.step with
    | .error f => .error f
    | .ok (.ok _, d2) => DualCore.runTag fuel d2
    | .ok (.error e, _) => .ok (some e)

/-- DualCore::from_str after parsing: both cores share the program, start
at pc 0 with empty registers except the process-identity register p
(0 in core1, 1 in core2); channels empty, counters zero. -/
def DualCore.init (code : List Instruction) : DualCore :=
  { core1 := { code := code, pc := 0, regs := RegisterSet.new.set 'p' 0, freq := none }
    core2 := { code := code, pc := 0, regs := RegisterSet.new.set 'p' 1, freq := none }
    queue1 := []
    queue2 := []
    txcount1 := 0
    txcount2 := 0 }

/-- The simple-exchange example program:
snd 1; snd 2; snd p; rcv a; rcv b; rcv c; rcv d. -/
def exchangeProg : List Instruction :=
  [.snd (.number 1), .snd (.number 2), .snd (.register 'p'),
   .rcv 'a', .rcv 'b', .rcv 'c', .rcv 'd']

/-- Dual-core pair running the single-instruction program rcv a. -/
def dRcv : DualCore := DualCore.init [.rcv 'a']

/-- Dual-core pair running the empty program. -/
def dEmpty : DualCore := DualCore.init []

/-- A lone core at a rcv instruction whose register is already nonzero but
with no value ever sent. -/
def cRcvOne : Core :=
  { code := [.rcv 'a'], pc := 0, regs := RegisterSet.new.set 'a' 1, freq := none }

/-- A lone core at a rcv instruction whose register is nonzero and whose
last-sent tracker holds 4. -/
def cRcvFreq : Core :=
  { code := [.rcv 'a'], pc := 0, regs := RegisterSet.new.set 'a' 1, freq := some 4 }

/-- A core about to take a jump of offset -5 from pc 0. -/
def cJg : Core :=
  { code := [.jgz (.number 1) (.number (-5))], pc := 0, regs := RegisterSet.new, freq := none }

/-- A core about to take a jump of offset -7 from pc 0. -/
def cJn : Core :=
  { code := [.jgz (.number 5) (.number (-7))], pc := 0, regs := RegisterSet.new, freq := none }

/-- A core at a mod instruction with literal divisor 0. -/
def cMod : Core :=
  { code := [.mod 'a' (.number 0)], pc := 0, regs := RegisterSet.new, freq := none }

/-- A core at a set instruction (neither snd nor rcv). -/
def cSet : Core :=
  { code := [.set 'a' (.number 1)], pc := 0, regs := RegisterSet.new, freq := none }

/-- The legacy semantics never reports Deadlock: that variant only arises
from the dual-core wrapper on an empty inbound channel. -/
theorem Core.step_no_deadlock (c : Core) :
    c.step ≠ Except.ok (Except.error CoreError.deadlock) := by
  unfold Core.step
  cases h : c.code.get? c.pc with
  | none => simp
  | some ins =>
    cases ins with
    | snd v => simp
    | set r v => simp
    | add r v => simp
    | mul r v => simp
    | mod r v =>
      dsimp only
      split
      · simp
      · split <;> simp
    | rcv r => simp
    | jgz v o => simp

/-- The shared tail of a non-blocked step_core call cannot report
Deadlock either. -/
theorem DualCore.finishStep_no_deadlock (c : Core) (rx tx : List Int) (n : Nat)
    (s : Core × List Int × List Int × Nat) :
    DualCore.finishStep c rx tx n ≠ Except.ok (Except.error CoreError.deadlock, s) := by
  unfold DualCore.finishStep
  cases h : c.step with
  | error f => simp
  | ok r =>
    cases r with
    | ok c2 => simp
    | error e =>
      cases e with
      | outOfInstructions => simp
      | deadlock => exact absurd h (Core.step_no_deadlock c)

/-- A blocked core's step_core reports Deadlock and returns every component
unchanged. -/
theorem DualCore.stepCore_blocked (c : Core) (rx tx : List Int) (n : Nat)
    (h : c.isBlocked rx = true) :
    DualCore.stepCore c rx tx n
      = Except.ok (Except.error CoreError.deadlock, c, rx, tx, n) := by
  unfold Core.isBlocked at h
  unfold DualCore.stepCore
  cases hg : c.code.get? c.pc with
  | none => rw [hg] at h; simp at h
  | some ins =>
    rw [hg] at h
    cases ins with
    | rcv r =>
      cases rx with
      | nil => rfl
      | cons a l => simp at h
    | snd v => simp at h
    | set r v => simp at h
    | add r v => simp at h
    | mul r v => simp at h
    | mod r v => simp at h
    | jgz v o => simp at h

/-- Conversely, a Deadlock outcome of step_core can only come from a
blocked core, and then nothing was modified. -/
theorem DualCore.stepCore_deadlock_inv (c : Core) (rx tx : List Int) (n : Nat)
    (s : Core × List Int × List Int × Nat)
    (h : DualCore.stepCore c rx tx n = Except.ok (Except.error CoreError.deadlock, s)) :
    c.isBlocked rx = true ∧ s = (c, rx, tx, n) := by
  unfold DualCore.stepCore at h
  cases hg : c.code.get? c.pc with
  | none =>
    rw [hg] at h
    exact absurd h (DualCore.finishStep_no_deadlock c rx tx n s)
  | some ins =>
    rw [hg] at h
    cases ins with
    | rcv r =>
      cases rx with
      | nil =>
        simp only [Except.ok.injEq, Prod.mk.injEq] at h
        refine ⟨?_, ?_⟩
        · unfold Core.isBlocked; rw [hg]; rfl
        · obtain ⟨-, h2⟩ := h
          exact h2.symm
      | cons a l => exact absurd h (DualCore.finishStep_no_deadlock _ _ _ _ s)
    | snd v => exact absurd h (DualCore.finishStep_no_deadlock _ _ _ _ s)
    | set r v => exact absurd h (DualCore.finishStep_no_deadlock _ _ _ _ s)
    | add r v => exact absurd h (DualCore.finishStep_no_deadlock _ _ _ _ s)
    | mul r v => exact absurd h (DualCore.finishStep_no_deadlock _ _ _ _ s)
    | mod r v => exact absurd h (DualCore.finishStep_no_deadlock _ _ _ _ s)
    | jgz v o => exact absurd h (DualCore.finishStep_no_deadlock _ _ _ _ s)

/-- The tick combiner yields Deadlock exactly when both per-core results
are Deadlock. -/
theorem DualCore.combine_deadlock_iff (r1 r2 : Except CoreError Unit) :
    DualCore.combine r1 r2 = Except.error CoreError.deadlock ↔
      (r1 = Except.error CoreError.deadlock ∧ r2 = Except.error CoreError.deadlock) := by
  cases r1 with
  | ok u =>
    cases r2 with
    | ok v => simp [DualCore.combine]
    | error e => cases e <;> simp [DualCore.combine]
  | error e1 =>
    cases e1 with
    | outOfInstructions =>
      cases r2 with
      | ok v => simp [DualCore.combine]
      | error e2 => cases e2 <;> simp [DualCore.combine]
    | deadlock =>
      cases r2 with
      | ok v => simp [DualCore.combine]
      | error e2 => cases e2 <;> simp [DualCore.combine]

/-- Claim C1: a scheduler tick yields the Deadlocked terminal condition
exactly when both cores are blocked (current instruction a receive with an
empty inbound channel) in that tick; then the run ends in state Deadlocked
with the state untouched, while a tick whose combined outcome is Ok - in
particular one where a single core is blocked and the other one stepped
Ok - does not end the run, which continues to the next tick. -/
theorem claim_c1_tick_deadlock (d d2 : DualCore) (r : Except CoreError Unit) (fuel : Nat)
    (h : d.step = Except.ok (r, d2)) :
    (r = Except.error CoreError.deadlock ↔
      (d.core1.isBlocked d.queue1 = true ∧ d.core2.isBlocked d.queue2 = true))
    ∧ (r = Except.error CoreError.deadlock →
        d.runTag (fuel + 1) = Except.ok (some CoreError.deadlock)
        ∧ d.run (fuel + 1) = Except.ok (some (d2, d2.txcount1, d2.txcount2)))
    ∧ (r = Except.ok () → d.run (fuel + 1) = d2.run fuel)
    ∧ (∀ s, DualCore.stepCore d.core1 d.queue1 d.queue2 d.txcount1
          = Except.ok (Except.error CoreError.deadlock, s) →
        ∀ c2x q2x q1x t2x, DualCore.stepCore d.core2 d.queue2 d.queue1 d.txcount2
          = Except.ok (Except.ok (), c2x, q2x, q1x, t2x) → r = Except.ok ())
    ∧ (∀ c1x q1x q2x t1x, DualCore.stepCore d.core1 d.queue1 d.queue2 d.txcount1
          = Except.ok (Except.ok (), c1x, q1x, q2x, t1x) →
        ∀ s, DualCore.stepCore d.core2 q2x q1x d.txcount2
          = Except.ok (Except.error CoreError.deadlock, s) → r = Except.ok ()) := by
  cases h1 : DualCore.stepCore d.core1 d.queue1 d.queue2 d.txcount1 with
  | error f =>
    have : d.step = Except.error f := by simp only [DualCore.step, h1]
    rw [this] at h
    exact absurd h (by simp)
  | ok p1 =>
    obtain ⟨r1, c1, q1, q2, t1⟩ := p1
    cases h2 : DualCore.stepCore d.core2 q2 q1 d.txcount2 with
    | error f =>
      have : d.step = Except.error f := by simp only [DualCore.step, h1, h2]
      rw [this] at h
      exact absurd h (by simp)
    | ok p2 =>
      obtain ⟨r2, c2, q2b, q1b, t2⟩ := p2
      have hstep : d.step
          = Except.ok (DualCore.combine r1 r2, ⟨c1, c2, q1b, q2b, t1, t2⟩) := by
        simp only [DualCore.step, h1, h2]
      rw [hstep] at h
      simp only [Except.ok.injEq, Prod.mk.injEq] at h
      obtain ⟨hr, hd2⟩ := h
      subst hr
      subst hd2
      refine ⟨?_, ?_, ?_, ?_, ?_⟩
      · constructor
        · intro hdl
          obtain ⟨hr1, hr2⟩ := (DualCore.combine_deadlock_iff r1 r2).mp hdl
          subst hr1; subst hr2
          obtain ⟨hb1, hs1⟩ := DualCore.stepCore_deadlock_inv _ _ _ _ _ h1
          simp only [Prod.mk.injEq] at hs1
          obtain ⟨hc1, hq1, hq2, ht1⟩ := hs1
          subst hc1; subst hq1; subst hq2; subst ht1
          obtain ⟨hb2, -⟩ := DualCore.stepCore_deadlock_inv _ _ _ _ _ h2
          exact ⟨hb1, hb2⟩
        · rintro ⟨hb1, hb2⟩
          have e1 := DualCore.stepCore_blocked d.core1 d.queue1 d.queue2 d.txcount1 hb1
          rw [e1] at h1
          simp only [Except.ok.injEq, Prod.mk.injEq] at h1
          obtain ⟨hr1, hc1, hq1, hq2, ht1⟩ := h1
          subst hr1; subst hc1; subst hq1; subst hq2; subst ht1
          have e2 := DualCore.stepCore_blocked d.core2 d.queue2 d.queue1 d.txcount2 hb2
          rw [e2] at h2
          simp only [Except.ok.injEq, Prod.mk.injEq] at h2
          obtain ⟨hr2, -, -, -, -⟩ := h2
          subst hr2
          rfl
      · intro hdl
        constructor
        · simp only [DualCore.runTag, hstep, hdl]
        · simp only [DualCore.run, hstep, hdl]
      · intro hok
        simp only [DualCore.run, hstep, hok]
      · intro s hs c2x q2x q1x t2x hs2
        simp only [Except.ok.injEq, Prod.mk.injEq] at hs
        obtain ⟨hr1, -⟩ := hs
        subst hr1
        obtain ⟨-, hs1⟩ := DualCore.stepCore_deadlock_inv _ _ _ _ _ h1
        simp only [Prod.mk.injEq] at hs1
        obtain ⟨-, hq1, hq2, -⟩ := hs1
        subst hq1; subst hq2
        rw [h2] at hs2
        simp only [Except.ok.injEq, Prod.mk.injEq] at hs2
        obtain ⟨hr2, -⟩ := hs2
        subst hr2
        rfl
      · intro c1x q1x q2x t1x hs1 s hs2
        simp only [Except.ok.injEq, Prod.mk.injEq] at hs1
        obtain ⟨hr1, -, hq1, hq2, -⟩ := hs1
        subst hr1
        subst hq1
        subst hq2
        rw [h2] at hs2
        simp only [Except.ok.injEq, Prod.mk.injEq] at hs2
        obtain ⟨hr2, -⟩ := hs2
        subst hr2
        rfl

/-- Witness for claim C1 at the dual-core rcv-only pair: the tick is a
deadlock and the conclusion holds there. -/
theorem claim_c1_tick_deadlock_w :
    ((Except.error CoreError.deadlock : Except CoreError Unit) = Except.error CoreError.deadlock ↔
      (dRcv.core1.isBlocked dRcv.queue1 = true ∧ dRcv.core2.isBlocked dRcv.queue2 = true))
    ∧ ((Except.error CoreError.deadlock : Except CoreError Unit) = Except.error CoreError.deadlock →
        dRcv.runTag (0 + 1) = Except.ok (some CoreError.deadlock)
        ∧ dRcv.run (0 + 1) = Except.ok (some (dRcv, dRcv.txcount1, dRcv.txcount2)))
    ∧ ((Except.error CoreError.deadlock : Except CoreError Unit) = Except.ok () →
        dRcv.run (0 + 1) = dRcv.run 0)
    ∧ (∀ s, DualCore.stepCore dRcv.core1 dRcv.queue1 dRcv.queue2 dRcv.txcount1
          = Except.ok (Except.error CoreError.deadlock, s) →
        ∀ c2x q2x q1x t2x, DualCore.stepCore dRcv.core2 dRcv.queue2 dRcv.queue1 dRcv.txcount2
          = Except.ok (Except.ok (), c2x, q2x, q1x, t2x) →
        (Except.error CoreError.deadlock : Except CoreError Unit) = Except.ok ())
    ∧ (∀ c1x q1x q2x t1x, DualCore.stepCore dRcv.core1 dRcv.queue1 dRcv.queue2 dRcv.txcount1
          = Except.ok (Except.ok (), c1x, q1x, q2x, t1x) →
        ∀ s, DualCore.stepCore dRcv.core2 q2x q1x dRcv.txcount2
          = Except.ok (Except.error CoreError.deadlock, s) →
        (Except.error CoreError.deadlock : Except CoreError Unit) = Except.ok ()) :=
  claim_c1_tick_deadlock dRcv dRcv (Except.error CoreError.deadlock) 0 rfl

/-- Claim C2: a core whose current instruction is a receive with an empty
inbound channel: the dual-core step reports the Blocked condition
(Err Deadlock) and returns the register file, program counter, both
channels and the sent counter unchanged, so the instruction is retried
unchanged on the next invocation. -/
theorem claim_c2_blocked_frame (c : Core) (r : Char) (tx : List Int) (n : Nat)
    (h : c.code.get? c.pc = some (.rcv r)) :
    DualCore.stepCore c [] tx n
      = Except.ok (Except.error CoreError.deadlock, c, [], tx, n) := by
  unfold DualCore.stepCore
  rw [h]

/-- Witness for claim C2 at a concrete blocked core. -/
theorem claim_c2_blocked_frame_w :
    DualCore.stepCore cRcvOne [] [] 0
      = Except.ok (Except.error CoreError.deadlock, cRcvOne, [], [], 0) :=
  claim_c2_blocked_frame cRcvOne 'a' [] 0 rfl

/-- Claim C3: the simple-exchange program run as a dual-core pair
(p seeded 0 and 1, channels empty) terminates with sent counters (3, 3),
register c = 1 in the first core and 0 in the second. -/
theorem claim_c3_exchange :
    (DualCore.run 8 (DualCore.init exchangeProg)).map (Option.map
      (fun r => (r.2.1, r.2.2, r.1.core1.regs.get 'c', r.1.core2.regs.get 'c')))
      = Except.ok (some (3, 3, (1 : Int), (0 : Int)))
    ∧ (DualCore.init exchangeProg).core1.regs.get 'p' = 0
    ∧ (DualCore.init exchangeProg).core2.regs.get 'p' = 1
    ∧ (DualCore.init exchangeProg).queue1 = []
    ∧ (DualCore.init exchangeProg).queue2 = [] :=
  ⟨rfl, rfl, rfl, rfl, rfl⟩

/-- Claim C4: a mod instruction whose resolved divisor is 0 makes the step
fail with the distinct arithmetic Fault (remZero), propagated through the
dual-core per-core step to the caller; being an Except.error it can never
silently produce a value or continue. -/
theorem claim_c4_mod_zero_fault (c : Core) (r : Char) (v : Value)
    (rx tx : List Int) (n : Nat)
    (h : c.code.get? c.pc = some (.mod r v)) (hv : v.get c.regs = 0) :
    c.step = Except.error Fault.remZero
    ∧ DualCore.stepCore c rx tx n = Except.error Fault.remZero := by
  have hstep : c.step = Except.error Fault.remZero := by
    unfold Core.step
    rw [h]
    simp [hv]
  refine ⟨hstep, ?_⟩
  unfold DualCore.stepCore
  rw [h]
  unfold DualCore.finishStep
  rw [hstep]

/-- Witness for claim C4 at a concrete core at mod a 0. -/
theorem claim_c4_mod_zero_fault_w :
    cMod.step = Except.error Fault.remZero
    ∧ DualCore.stepCore cMod [] [] 0 = Except.error Fault.remZero :=
  claim_c4_mod_zero_fault cMod 'a' (.number 0) [] [] 0 rfl rfl

/-- Counterexample to claim C5: a core at rcv a with register a nonzero but
nothing ever sent. The run does not stop at the receive - the step
advances the program counter and the run then halts returning none, not a
most recently sent value. -/
theorem claim_c5_cex :
    cRcvOne.regs.get 'a' ≠ 0
    ∧ cRcvOne.code.get? cRcvOne.pc = some (.rcv 'a')
    ∧ cRcvOne.step = Except.ok (Except.ok { cRcvOne with pc := 1 })
    ∧ Core.runUntilRecv 2 cRcvOne = some (Except.ok none) :=
  ⟨by decide, rfl, rfl, rfl⟩

/-- Claim C5 as amended: in legacy mode at a Receive(r), with the loop's
last-frequency tracker in sync with the core's tracked last-sent value:
if register r is nonzero and a sent value v is tracked, the run stops
returning v (the most recently sent value); if register r is nonzero but
no value is tracked, execution continues past the instruction; if
register r is zero, the instruction is a no-op (only the program counter
advances) and execution continues with the next instruction. -/
theorem claim_c5_legacy_rcv (c : Core) (r : Char) (fuel : Nat)
    (h : c.code.get? c.pc = some (.rcv r)) :
    (∀ v1, c.regs.get r ≠ 0 → c.freq = some v1 →
        Core.runUntilRecvFrom (fuel + 1) c c.freq = some (Except.ok (some v1)))
    ∧ (c.regs.get r ≠ 0 → c.freq = none →
        Core.runUntilRecvFrom (fuel + 1) c c.freq
          = Core.runUntilRecvFrom fuel
              { c with pc := (c.pc + 1) % 18446744073709551616, freq := none } none)
    ∧ (c.regs.get r = 0 →
        c.step = Except.ok (Except.ok { c with pc := (c.pc + 1) % 18446744073709551616 })
        ∧ Core.runUntilRecvFrom (fuel + 1) c c.freq
            = Core.runUntilRecvFrom fuel
                { c with pc := (c.pc + 1) % 18446744073709551616 } c.freq) := by
  refine ⟨?_, ?_, ?_⟩
  · intro v1 hz hf
    have hstep : c.step = Except.ok (Except.ok
        { c with pc := (c.pc + 1) % 18446744073709551616, freq := none }) := by
      unfold Core.step
      rw [h]
      simp only [if_pos hz, Core.advance]
    simp only [Core.runUntilRecvFrom, hstep, hf]
    simp
  · intro hz hf
    have hstep : c.step = Except.ok (Except.ok
        { c with pc := (c.pc + 1) % 18446744073709551616, freq := none }) := by
      unfold Core.step
      rw [h]
      simp only [if_pos hz, Core.advance]
    simp only [Core.runUntilRecvFrom, hstep, hf]
    simp
  · intro hz
    have hstep : c.step = Except.ok (Except.ok
        { c with pc := (c.pc + 1) % 18446744073709551616 }) := by
      unfold Core.step
      rw [h]
      have : ¬ (c.regs.get r ≠ 0) := by simp [hz]
      simp only [if_neg this, Core.advance]
    refine ⟨hstep, ?_⟩
    simp only [Core.runUntilRecvFrom, hstep]
    cases hf : c.freq with
    | none => simp
    | some v => simp

/-- Witness for the amended claim C5 at a concrete core with a tracked
sent value. -/
theorem claim_c5_legacy_rcv_w :
    (∀ v1, cRcvFreq.regs.get 'a' ≠ 0 → cRcvFreq.freq = some v1 →
        Core.runUntilRecvFrom (0 + 1) cRcvFreq cRcvFreq.freq = some (Except.ok (some v1)))
    ∧ (cRcvFreq.regs.get 'a' ≠ 0 → cRcvFreq.freq = none →
        Core.runUntilRecvFrom (0 + 1) cRcvFreq cRcvFreq.freq
          = Core.runUntilRecvFrom 0
              { cRcvFreq with pc := (cRcvFreq.pc + 1) % 18446744073709551616, freq := none } none)
    ∧ (cRcvFreq.regs.get 'a' = 0 →
        cRcvFreq.step = Except.ok (Except.ok
          { cRcvFreq with pc := (cRcvFreq.pc + 1) % 18446744073709551616 })
        ∧ Core.runUntilRecvFrom (0 + 1) cRcvFreq cRcvFreq.freq
            = Core.runUntilRecvFrom 0
                { cRcvFreq with pc := (cRcvFreq.pc + 1) % 18446744073709551616 } cRcvFreq.freq) :=
  claim_c5_legacy_rcv cRcvFreq 'a' 0 rfl

/-- Counterexample to claim C6: the empty program halts and the rcv-only
program deadlocks, with different terminal conditions, yet the run results
(the counter pairs the source function returns) are identical - the result
does not comprise the terminal state tag. -/
theorem claim_c6_cex :
    (DualCore.run 2 dEmpty).map (Option.map (fun r => (r.2.1, r.2.2)))
      = (DualCore.run 2 dRcv).map (Option.map (fun r => (r.2.1, r.2.2)))
    ∧ (DualCore.run 2 dEmpty).map (Option.map (fun r => (r.2.1, r.2.2)))
      = Except.ok (some (0, 0))
    ∧ DualCore.runTag 2 dEmpty = Except.ok (some CoreError.outOfInstructions)
    ∧ DualCore.runTag 2 dRcv = Except.ok (some CoreError.deadlock) :=
  ⟨rfl, rfl, rfl, rfl⟩

/-- Claim C6 as amended: whichever of the two terminal conditions
(Halted = outOfInstructions, Deadlocked = deadlock) ends a tick, the run
returns successfully with the final per-core sent counters; the tag is
observed by the loop (runTag) but is not part of run's return value. -/
theorem claim_c6_run_result (d d2 : DualCore) (e : CoreError) (fuel : Nat)
    (h : d.step = Except.ok (Except.error e, d2)) :
    d.run (fuel + 1) = Except.ok (some (d2, d2.txcount1, d2.txcount2))
    ∧ d.runTag (fuel + 1) = Except.ok (some e) := by
  constructor
  · simp only [DualCore.run, h]
  · simp only [DualCore.runTag, h]

/-- Witness for the amended claim C6 at the deadlocking pair. -/
theorem claim_c6_run_result_w :
    dRcv.run (0 + 1) = Except.ok (some (dRcv, dRcv.txcount1, dRcv.txcount2))
    ∧ dRcv.runTag (0 + 1) = Except.ok (some CoreError.deadlock) :=
  claim_c6_run_result dRcv dRcv CoreError.deadlock 0 rfl

/-- Kernel arithmetic of the jgz cast chain: the combined effect of the
two wrapping additions and the two bit casts, followed by the trailing
pc increment, is addition of the offset modulo 2^64. -/
theorem jumpTarget_advance (pc : Nat) (ofs : Int) :
    (jumpTarget pc ofs + 1) % 18446744073709551616
      = (((pc : Int) + ofs) % 18446744073709551616).toNat := by
  unfold jumpTarget toUnsigned64 wrap64 toSigned64
  split <;> omega

/-- Counterexample to claim C7: a taken jump of offset -5 from pc 0 does
not change the program counter by exactly -5; it wraps to 2^64 - 5. -/
theorem claim_c7_cex :
    cJg.code.get? cJg.pc = some (.jgz (.number 1) (.number (-5)))
    ∧ cJg.step = Except.ok (Except.ok { cJg with pc := 18446744073709551611 })
    ∧ ((18446744073709551611 : Int) - (cJg.pc : Int) ≠ -5) :=
  ⟨rfl, rfl, by decide⟩

/-- Claim C7 as amended: at a JumpIfPositive(cond, offset), if resolved
cond is strictly positive the new program counter is
(pc + resolved offset) mod 2^64 - equal to changing pc by exactly the
offset whenever the sum is in range - and otherwise (pc + 1) mod 2^64; in
both cases the registers (and tracked frequency) are unchanged and the
outcome is Continued (Ok). -/
theorem claim_c7_jgz (c : Core) (v o : Value)
    (h : c.code.get? c.pc = some (.jgz v o)) :
    c.step = Except.ok (Except.ok { c with
      pc := if 0 < v.get c.regs
            then (((c.pc : Int) + o.get c.regs) % 18446744073709551616).toNat
            else (c.pc + 1) % 18446744073709551616 }) := by
  unfold Core.step
  rw [h]
  by_cases hv : 0 < v.get c.regs
  · simp only [if_pos hv, Core.advance]
    rw [jumpTarget_advance]
  · simp only [if_neg hv, Core.advance]

/-- Witness for the amended claim C7 at the concrete backward jump. -/
theorem claim_c7_jgz_w :
    cJg.step = Except.ok (Except.ok { cJg with
      pc := if 0 < (Value.number 1).get cJg.regs
            then (((cJg.pc : Int) + (Value.number (-5)).get cJg.regs) % 18446744073709551616).toNat
            else (cJg.pc + 1) % 18446744073709551616 }) :=
  claim_c7_jgz cJg (.number 1) (.number (-5)) rfl

/-- Claim C8: the dual-core run is deterministic - identical initial
states produce identical counters and identical terminal condition on any
two runs. -/
theorem claim_c8_deterministic (fuel : Nat) (d1 d2 : DualCore) (h : d1 = d2) :
    DualCore.run fuel d1 = DualCore.run fuel d2
    ∧ DualCore.runTag fuel d1 = DualCore.runTag fuel d2 := by
  subst h
  exact ⟨rfl, rfl⟩

/-- Witness for claim C8 at the empty-program pair. -/
theorem claim_c8_deterministic_w :
    DualCore.run 2 dEmpty = DualCore.run 2 dEmpty
    ∧ DualCore.runTag 2 dEmpty = DualCore.runTag 2 dEmpty :=
  claim_c8_deterministic 2 dEmpty dEmpty rfl

/-- Claim C9: on an instruction that is neither snd nor rcv, the dual-core
per-core step agrees with the legacy step: same new core (registers and
program counter), same halt condition (outOfInstructions), same fault
propagation, and the channels and the sent counter pass through
unchanged. -/
theorem claim_c9_nonchannel_equiv (c : Core) (rx tx : List Int) (n : Nat)
    (h : isChannelOp (c.code.get? c.pc) = false) :
    (∀ c2, c.step = Except.ok (Except.ok c2) →
        DualCore.stepCore c rx tx n = Except.ok (Except.ok (), c2, rx, tx, n))
    ∧ (∀ e, c.step = Except.ok (Except.error e) →
        DualCore.stepCore c rx tx n = Except.ok (Except.error e, c, rx, tx, n))
    ∧ (∀ f, c.step = Except.error f →
        DualCore.stepCore c rx tx n = Except.error f) := by
  have hsc : DualCore.stepCore c rx tx n = DualCore.finishStep c rx tx n := by
    unfold DualCore.stepCore
    unfold isChannelOp at h
    cases hg : c.code.get? c.pc with
    | none => rfl
    | some ins =>
      rw [hg] at h
      cases ins with
      | snd v => simp at h
      | rcv r => simp at h
      | set r v => rfl
      | add r v => rfl
      | mul r v => rfl
      | mod r v => rfl
      | jgz v o => rfl
  refine ⟨?_, ?_, ?_⟩
  · intro c2 hstep
    rw [hsc]
    unfold DualCore.finishStep
    rw [hstep]
  · intro e hstep
    rw [hsc]
    unfold DualCore.finishStep
    rw [hstep]
  · intro f hstep
    rw [hsc]
    unfold DualCore.finishStep
    rw [hstep]

/-- Witness for claim C9 at a concrete set instruction. -/
theorem claim_c9_nonchannel_equiv_w :
    (∀ c2, cSet.step = Except.ok (Except.ok c2) →
        DualCore.stepCore cSet [] [] 0 = Except.ok (Except.ok (), c2, [], [], 0))
    ∧ (∀ e, cSet.step = Except.ok (Except.error e) →
        DualCore.stepCore cSet [] [] 0 = Except.ok (Except.error e, cSet, [], [], 0))
    ∧ (∀ f, cSet.step = Except.error f →
        DualCore.stepCore cSet [] [] 0 = Except.error f) :=
  claim_c9_nonchannel_equiv cSet [] [] 0 rfl

/-- Claim C10: a taken JumpIfPositive whose target sum pc + offset is
negative (offset an i64) sets the program counter to the two's-complement
wraparound pc + offset + 2^64 of that sum, and for any program shorter
than that wrapped value the next step halts normally
(Ok (Err OutOfInstructions)) rather than faulting. -/
theorem claim_c10_jgz_wrap (c : Core) (v o : Value)
    (h : c.code.get? c.pc = some (.jgz v o))
    (hpos : 0 < v.get c.regs)
    (hneg : (c.pc : Int) + o.get c.regs < 0)
    (hofs : -9223372036854775808 ≤ o.get c.regs) :
    c.step = Except.ok (Except.ok { c with
      pc := ((c.pc : Int) + o.get c.regs + 18446744073709551616).toNat })
    ∧ (c.code.length < ((c.pc : Int) + o.get c.regs + 18446744073709551616).toNat →
        Core.step { c with
            pc := ((c.pc : Int) + o.get c.regs + 18446744073709551616).toNat }
          = Except.ok (Except.error CoreError.outOfInstructions)) := by
  constructor
  · unfold Core.step
    rw [h]
    simp only [if_pos hpos, Core.advance]
    have : (jumpTarget c.pc (o.get c.regs) + 1) % 18446744073709551616
        = ((c.pc : Int) + o.get c.regs + 18446744073709551616).toNat := by
      rw [jumpTarget_advance]
      omega
    rw [this]
  · intro hlen
    unfold Core.step
    have : (c.code.get? (((c.pc : Int) + o.get c.regs + 18446744073709551616).toNat))
        = none := by
      rw [List.get?_eq_none]
      omega
    simp only [this]

/-- Witness for claim C10 at the concrete jump of offset -7 from pc 0. -/
theorem claim_c10_jgz_wrap_w :
    cJn.step = Except.ok (Except.ok { cJn with
      pc := ((cJn.pc : Int) + (Value.number (-7)).get cJn.regs + 18446744073709551616).toNat })
    ∧ (cJn.code.length
          < ((cJn.pc : Int) + (Value.number (-7)).get cJn.regs + 18446744073709551616).toNat →
        Core.step { cJn with
            pc := ((cJn.pc : Int) + (Value.number (-7)).get cJn.regs + 18446744073709551616).toNat }
          = Except.ok (Except.error CoreError.outOfInstructions)) :=
  claim_c10_jgz_wrap cJn (.number 5) (.number (-7)) rfl (by decide) (by decide) (by decide)

end Day18
